import Mathlib

/-!
Verification of the peyda backend core against its specification.

The definitions below are a shallow embedding of the Python sources:

* `backend/infrastructure/cache.py`   — TTL key-value cache (Redis semantics)
* `backend/services/auth/service.py`  — OTP authentication state machine
* `backend/config/api/decorators.py`  — idempotency guard
* `backend/config/api/models.py`      — idempotency record
* `backend/services/matching/service.py` — matching engine
* `backend/infrastructure/event_bus.py`  — reliable event publisher
* `backend/services/commands/base.py` — command-layer event publishing

Machine integers become `Nat`/`Int`, Python floats become `ℝ`, Python
dictionaries become typed structures or association lists, and the cache's
wall clock is threaded explicitly as a `Nat` unix time.
-/

namespace Peyda

/-- A JSON-like scalar value, as appears in event payloads and responses. -/
inductive JVal where
  | s (v : String)
  | i (v : Int)
  | b (v : Bool)
deriving DecidableEq, Repr

/-- A JSON object: an association list of named fields. -/
abbrev JObj := List (String × JVal)

/-- Whether the object has a field named `k`. -/
def JObj.hasField (o : JObj) (k : String) : Bool :=
  o.any (fun f => f.1 == k)

/-- Python dictionary assignment `o[k] = v`: replace the binding in place if
the key is present, otherwise append it. -/
def JObj.setField (o : JObj) (k : String) (v : JVal) : JObj :=
  if o.hasField k then o.map (fun f => if f.1 == k then (k, v) else f)
  else o ++ [(k, v)]

/-- A published domain event: type string plus payload object
(`event_bus.py`, message body `{"event_type", "payload"}`). -/
structure Event where
  event_type : String
  payload : JObj
deriving DecidableEq, Repr

/-! ## Cache model (`infrastructure/cache.py`)

The services key the cache with the string namespaces `"otp:<requestId>"`,
`"otp_rate:<md5(phone)>"` and `"blacklist:<sha256(token)>"`.  The three
prefixes differ pairwise within their first four characters, so the
namespaces can never collide and are modelled as constructors.  The digests
serve only to derive a deterministic key from the phone/token, so they are
modelled by keying on the phone/token itself. -/

inductive CKey where
  | otp (requestId : String)
  | otpRate (phone : String)
  | blacklist (token : String)
deriving DecidableEq, Repr

/-- The OTP session object stored under `otp:<requestId>`
(`send_otp`'s `otp_data` dictionary). -/
structure OtpData where
  otp : String
  phone : String
  attempts : Nat
  resends : Nat
  created_at : Nat
deriving DecidableEq, Repr

/-- Values stored in the cache by the auth service. -/
inductive CVal where
  | session (d : OtpData)
  | count (n : Nat)
  | flag (b : Bool)
deriving DecidableEq, Repr

/-- One cache entry: value plus absolute expiry time (set time + ttl),
mirroring Redis `SETEX`. -/
structure CEntry where
  val : CVal
  expiresAt : Nat
deriving DecidableEq, Repr

/-- The cache store: an association list, most recent binding first. -/
abbrev Cache := List (CKey × CEntry)

namespace Cache

/-- `get`: the value bound to `k`, unless absent or expired at time `now`. -/
def get (c : Cache) (now : Nat) (k : CKey) : Option CVal :=
  match c.find? (fun e => e.1 == k) with
  | some (_, e) => if now < e.expiresAt then some e.val else none
  | none => none

/-- `set` with a TTL: replaces any previous binding of `k`. -/
def set (c : Cache) (now : Nat) (k : CKey) (v : CVal) (ttl : Nat) : Cache :=
  (k, ⟨v, now + ttl⟩) :: c.filter (fun e => e.1 != k)

/-- `delete`: drop the binding of `k`. -/
def delete (c : Cache) (k : CKey) : Cache :=
  c.filter (fun e => e.1 != k)

/-- The absolute expiry time currently recorded for `k`, if bound. -/
def expiryOf (c : Cache) (k : CKey) : Option Nat :=
  match c.find? (fun e => e.1 == k) with
  | some (_, e) => some e.expiresAt
  | none => none

end Cache

/-! ## OTP authentication service (`services/auth/service.py`)

The cryptographically random OTP code and request id are produced by an
external random source (`secrets`), so they enter the model as arguments.
User resolution and JWT minting on the success path are external
collaborators (the user store and the `jwt` library); the success result
carries the verified phone in their place. -/

def OTP_EXPIRY_SECONDS : Nat := 300
def MAX_ATTEMPTS : Nat := 3
def MAX_RESENDS : Nat := 3

/-- Result of `send_otp` (dataclass `SendOTPResult`). -/
structure SendOTPResult where
  success : Bool
  request_id : Option String := none
  expires_in : Nat := 300
  max_attempts : Nat := 3
  max_resends : Nat := 3
  error_code : Option String := none
deriving DecidableEq, Repr

/-- Result of `verify_otp` (dataclass `VerifyOTPResult`). -/
structure VerifyOTPResult where
  success : Bool
  phone : Option String := none
  error_code : Option String := none
deriving DecidableEq, Repr

/-- Result of `resend_otp` (dataclass `ResendOTPResult`). -/
structure ResendOTPResult where
  success : Bool
  request_id : Option String := none
  expires_in : Nat := 300
  remaining_resends : Nat := 0
  error_code : Option String := none
deriving DecidableEq, Repr

/-- `OTPAuthService._validate_phone`: strip a country prefix and leading
zeros, then require ten digits starting with 9.  Python's `startswith`,
`lstrip` and `isdigit` are modelled over the string's character list. -/
def validate_phone (phone : String) : Bool :=
  let cs := phone.toList
  if cs.isEmpty then false
  else
    let p1 := if cs.take 3 = ['+', '9', '8'] then cs.drop 3
              else if cs.take 2 = ['9', '8'] then cs.drop 2
              else cs
    let p2 := p1.dropWhile (· == '0')
    p2.length == 10 && p2.take 1 == ['9'] && p2.all Char.isDigit

/-- The hourly rate counter `_is_rate_limited` reads for a phone
(`self._cache.get_json(key) or 0`: absent or expired counts as zero). -/
def rateCountVal (c : Cache) (now : Nat) (phone : String) : Nat :=
  match Cache.get c now (CKey.otpRate phone) with
  | some (CVal.count n) => n
  | _ => 0

/-- `OTPAuthService._is_rate_limited`: read the hourly counter for the
phone; at five or more refuse, otherwise increment it with a one-hour TTL. -/
def is_rate_limited (c : Cache) (now : Nat) (phone : String) : Bool × Cache :=
  let count := rateCountVal c now phone
  if 5 ≤ count then (true, c)
  else (false, Cache.set c now (CKey.otpRate phone) (CVal.count (count + 1)) 3600)

/-- `OTPAuthService.send_otp`.  `otp` and `request_id` are the externally
generated random code and request id. -/
def send_otp (phone country_code otp request_id : String) (now : Nat)
    (c : Cache) : SendOTPResult × Cache × List Event :=
  if ¬ validate_phone phone then
    ({ success := false, error_code := some "INVALID_PHONE" }, c, [])
  else
    let full_phone := country_code ++ phone
    let rl := is_rate_limited c now full_phone
    if rl.1 then
      ({ success := false, error_code := some "TOO_MANY_REQUESTS" }, rl.2, [])
    else
      let otp_data : OtpData :=
        { otp := otp, phone := full_phone, attempts := 0, resends := 0,
          created_at := now }
      let c2 := Cache.set rl.2 now (CKey.otp request_id)
        (CVal.session otp_data) OTP_EXPIRY_SECONDS
      let ev : Event :=
        { event_type := "otp.send_requested",
          payload := [("request_id", .s request_id), ("phone", .s full_phone),
                      ("otp", .s otp), ("expires_in", .i OTP_EXPIRY_SECONDS)] }
      ({ success := true, request_id := some request_id,
         expires_in := OTP_EXPIRY_SECONDS }, c2, [ev])

/-- `OTPAuthService.verify_otp`. -/
def verify_otp (request_id otpInput : String) (now : Nat) (c : Cache) :
    VerifyOTPResult × Cache :=
  match Cache.get c now (CKey.otp request_id) with
  | some (CVal.session d) =>
      if MAX_ATTEMPTS ≤ d.attempts then
        ({ success := false, error_code := some "MAX_ATTEMPTS_REACHED" }, c)
      else
        let d1 := { d with attempts := d.attempts + 1 }
        let c1 := Cache.set c now (CKey.otp request_id) (CVal.session d1)
          OTP_EXPIRY_SECONDS
        if d.otp ≠ otpInput then
          ({ success := false, error_code := some "INVALID_OTP" }, c1)
        else
          let c2 := Cache.delete c1 (CKey.otp request_id)
          ({ success := true, phone := some d.phone }, c2)
  | _ =>
      ({ success := false, error_code := some "INVALID_REQUEST_ID" }, c)

/-- `OTPAuthService.resend_otp`.  `new_otp` is the externally generated
fresh code. -/
def resend_otp (request_id new_otp : String) (now : Nat) (c : Cache) :
    ResendOTPResult × Cache × List Event :=
  match Cache.get c now (CKey.otp request_id) with
  | some (CVal.session d) =>
      if MAX_RESENDS ≤ d.resends then
        ({ success := false, error_code := some "MAX_RESENDS_REACHED" }, c, [])
      else
        let d1 : OtpData :=
          { d with otp := new_otp, resends := d.resends + 1, attempts := 0 }
        let c1 := Cache.set c now (CKey.otp request_id) (CVal.session d1)
          OTP_EXPIRY_SECONDS
        let ev : Event :=
          { event_type := "otp.send_requested",
            payload := [("request_id", .s request_id), ("phone", .s d.phone),
                        ("otp", .s new_otp),
                        ("expires_in", .i OTP_EXPIRY_SECONDS)] }
        ({ success := true, request_id := some request_id,
           expires_in := OTP_EXPIRY_SECONDS,
           remaining_resends := MAX_RESENDS - d1.resends }, c1, [ev])
  | _ =>
      ({ success := false, error_code := some "INVALID_REQUEST_ID" }, c, [])

/-- The attempt counter currently stored for a request id. -/
def attemptsOf (c : Cache) (now : Nat) (rid : String) : Option Nat :=
  match Cache.get c now (CKey.otp rid) with
  | some (CVal.session d) => some d.attempts
  | _ => none

/-! ## Idempotency guard (`config/api/decorators.py`, `config/api/models.py`)

`IdempotencyRecord` stores the exact status code and body returned by the
first execution.  The guard wraps an operation `op` acting on an inner
state `σ` (the business write).  UUID parsing is done by the external
`uuid` library, so it enters the model as a function argument. -/

/-- A row of `api_idempotency_record` (`IdempotencyRecord`). -/
structure IdemRecord where
  key : String
  user_id : Nat
  endpoint : String
  response_status : Nat
  response_body : JObj
deriving DecidableEq, Repr

/-- An HTTP response as the decorator sees it: status code plus body. -/
structure HttpResponse where
  status : Nat
  data : JObj
deriving DecidableEq, Repr

/-- The store visible to the guard: idempotency records plus the state the
wrapped operation acts on. -/
structure IdemState (σ : Type) where
  records : List IdemRecord
  inner : σ

/-- The `idempotent` decorator (`decorators.py`).  `raw_key` is the key as
supplied by header or body (`none` when absent), `parse_uuid` the external
UUID parser, `op` the wrapped endpoint operation. -/
def idempotent_guard {σ : Type} (parse_uuid : String → Option String)
    (op : σ → HttpResponse × σ) (raw_key : Option String) (user_id : Nat)
    (endpoint : String) (st : IdemState σ) : HttpResponse × IdemState σ :=
  match raw_key with
  | none =>
      ({ status := 400,
         data := [("error", .s "Missing idempotency_key"),
                  ("code", .s "IDEMPOTENCY_REQUIRED")] }, st)
  | some rk =>
      match parse_uuid rk with
      | none =>
          ({ status := 400,
             data := [("error", .s "Invalid idempotency_key format"),
                      ("code", .s "INVALID_IDEMPOTENCY_KEY")] }, st)
      | some k =>
          match st.records.find? (fun r => r.key == k && r.user_id == user_id) with
          | some r => ({ status := r.response_status, data := r.response_body }, st)
          | none =>
              let res := op st.inner
              (res.1, ⟨st.records ++
                [{ key := k, user_id := user_id, endpoint := endpoint,
                   response_status := res.1.status,
                   response_body := res.1.data }], res.2⟩)

/-! ## Matching engine (`services/matching/service.py`,
`apps/reports/models.py`)

Coordinates are Python floats fed to `math` trigonometry, so they are
modelled as real numbers; consequently the similarity score and everything
downstream of it is noncomputable but fully specified. -/

inductive RType where
  | lost
  | found
deriving DecidableEq, Repr

inductive RStatus where
  | active
  | resolved
  | suspended
deriving DecidableEq, Repr

inductive MStatus where
  | pending
  | rejected
deriving DecidableEq, Repr

/-- A `Report` row, restricted to the fields the matching engine reads. -/
structure Report where
  id : String
  report_type : RType
  status : RStatus
  gender : Option String
  age : Option Int
  latitude : ℝ
  longitude : ℝ
  user_id : Int

/-- A `Match` row, restricted to the fields the matching engine writes. -/
structure MatchRec where
  match_id : Nat
  report_lost_id : String
  report_found_id : String
  similarity_score : Int
  status : MStatus
  notified_report_id : String

/-- The persistence state the matching engine acts on: report rows, match
rows, and a fresh-id counter standing in for uuid generation. -/
structure MState where
  reports : List Report
  match_rows : List MatchRec
  next_id : Nat

/-- `MatchCandidate` dataclass. -/
structure MatchCandidate where
  report_id : String
  user_id : Int
  similarity_score : Int
deriving Repr

def MATCH_DISPLAY_THRESHOLD : Int := 40
def MATCH_NOTIFY_THRESHOLD : Int := 60
def MAX_MATCHES_PER_REPORT : Nat := 20

/-- `MatchingService._calculate_gender_score`. -/
def gender_score (g1 g2 : Option String) : Int :=
  match g1, g2 with
  | some a, some b => if a = b then 100 else 0
  | _, _ => 50

/-- `MatchingService._calculate_age_score`. -/
def age_score (a1 a2 : Option Int) : Int :=
  match a1, a2 with
  | some x, some y =>
      let diff := (x - y).natAbs
      if diff = 0 then 100
      else if diff ≤ 2 then 90
      else if diff ≤ 5 then 70
      else if diff ≤ 10 then 40
      else 10
  | _, _ => 50

/-- Python `math.radians`. -/
noncomputable def radians (x : ℝ) : ℝ := x * Real.pi / 180

/-- Python `math.atan2`. -/
noncomputable def atan2 (y x : ℝ) : ℝ :=
  if 0 < x then Real.arctan (y / x)
  else if x < 0 ∧ 0 ≤ y then Real.arctan (y / x) + Real.pi
  else if x < 0 ∧ y < 0 then Real.arctan (y / x) - Real.pi
  else if x = 0 ∧ 0 < y then Real.pi / 2
  else if x = 0 ∧ y < 0 then -(Real.pi / 2)
  else 0

/-- `MatchingService._haversine_distance` (kilometres). -/
noncomputable def haversine_distance (lat1 lng1 lat2 lng2 : ℝ) : ℝ :=
  let R : ℝ := 6371
  let l1 := radians lat1
  let g1 := radians lng1
  let l2 := radians lat2
  let g2 := radians lng2
  let dlat := l2 - l1
  let dlng := g2 - g1
  let a := Real.sin (dlat / 2) ^ 2 +
    Real.cos l1 * Real.cos l2 * Real.sin (dlng / 2) ^ 2
  let c := 2 * atan2 (Real.sqrt a) (Real.sqrt (1 - a))
  R * c

/-- `MatchingService._calculate_location_score`. -/
noncomputable def location_score (lat1 lng1 lat2 lng2 : ℝ) : Int :=
  let d := haversine_distance lat1 lng1 lat2 lng2
  if d ≤ 0.5 then 100
  else if d ≤ 1 then 90
  else if d ≤ 2 then 70
  else if d ≤ 5 then 50
  else if d ≤ 10 then 30
  else 10

/-- Python `int(x)`: truncation toward zero. -/
noncomputable def pyInt (x : ℝ) : Int :=
  if 0 ≤ x then ⌊x⌋ else ⌈x⌉

/-- `MatchingService._calculate_similarity`: real-valued weighted sum of
the three sub-scores, truncated once at the end. -/
noncomputable def calculate_similarity (r1 r2 : Report) : Int :=
  let g := gender_score r1.gender r2.gender
  let a := age_score r1.age r2.age
  let l := location_score r1.latitude r1.longitude r2.latitude r2.longitude
  pyInt ((g : ℝ) * 0.40 + (a : ℝ) * 0.35 + (l : ℝ) * 0.25)

/-- The duplicate check inside the candidate loop: a `Match` row already
links the two reports, in either orientation. -/
def match_exists (rows : List MatchRec) (id1 id2 : String) : Bool :=
  rows.any (fun m =>
    (m.report_lost_id == id1 && m.report_found_id == id2) ||
    (m.report_lost_id == id2 && m.report_found_id == id1))

/-- The candidate loop of `find_matches_for_report`: skip candidates that
already have a match with the new report, score the rest, and keep those
at or above the display threshold. -/
noncomputable def score_candidates (newR : Report) (rows : List MatchRec) :
    List Report → List MatchCandidate
  | [] => []
  | cand :: rest =>
      if match_exists rows newR.id cand.id then
        score_candidates newR rows rest
      else
        let score := calculate_similarity newR cand
        if MATCH_DISPLAY_THRESHOLD ≤ score then
          { report_id := cand.id, user_id := cand.user_id,
            similarity_score := score } :: score_candidates newR rows rest
        else
          score_candidates newR rows rest

/-- The `match.found` event payload published by `_create_matches`. -/
def match_found_event (row : MatchRec) (c : MatchCandidate) : Event :=
  { event_type := "match.found",
    payload := [("match_id", .s (toString row.match_id)),
                ("report_lost_id", .s row.report_lost_id),
                ("report_found_id", .s row.report_found_id),
                ("notified_user_id", .i c.user_id),
                ("similarity_score", .i c.similarity_score)] }

/-- The row-creation loop of `MatchingService._create_matches`: one `Match`
row per retained candidate, oriented by the new report's type, with
`notified_report_id` pointing at the pre-existing (candidate) report, and a
`match.found` event whenever the score reaches the notify threshold. -/
def create_rows (newR : Report) (nid : Nat) :
    List MatchCandidate → List MatchRec × List Event
  | [] => ([], [])
  | c :: rest =>
      let ids := if newR.report_type = RType.lost
                 then (newR.id, c.report_id) else (c.report_id, newR.id)
      let row : MatchRec :=
        { match_id := nid, report_lost_id := ids.1, report_found_id := ids.2,
          similarity_score := c.similarity_score, status := MStatus.pending,
          notified_report_id := c.report_id }
      let evs := if MATCH_NOTIFY_THRESHOLD ≤ c.similarity_score
                 then [match_found_event row c] else []
      let next := create_rows newR (nid + 1) rest
      (row :: next.1, evs ++ next.2)

/-- `MatchingService._create_matches`. -/
def create_matches (newR : Report) (cands : List MatchCandidate)
    (st : MState) : MState × List Event :=
  let rows := create_rows newR st.next_id cands
  ({ st with match_rows := st.match_rows ++ rows.1,
             next_id := st.next_id + rows.1.length }, rows.2)

/-- `MatchingService.find_matches_for_report`. -/
noncomputable def find_matches_for_report (rid : String) (st : MState) :
    List MatchCandidate × MState × List Event :=
  match st.reports.find? (fun r => r.id == rid) with
  | none => ([], st, [])
  | some newR =>
      if newR.status ≠ RStatus.active then ([], st, [])
      else
        let opposite := if newR.report_type = RType.lost
                        then RType.found else RType.lost
        let cands0 := st.reports.filter (fun r =>
          r.report_type == opposite && r.status == RStatus.active)
        let cands1 := match newR.gender with
          | some g => cands0.filter (fun (r : Report) =>
              r.gender == some g || r.gender == none)
          | none => cands0
        let cands := cands1.take 1000
        let scored := score_candidates newR st.match_rows cands
        let sorted := (scored.mergeSort (fun a b =>
          b.similarity_score ≤ a.similarity_score)).take MAX_MATCHES_PER_REPORT
        let res := create_matches newR sorted st
        (sorted, res.1, res.2)

/-! ## Reliable event publisher (`infrastructure/event_bus.py`) and the
command layer (`services/commands/base.py`)

The broker is external: `env i` is the outcome of the `i`-th publish
attempt (`none` = delivered, `some e` = the connection error raised).  The
publisher is modelled as a trace-producing loop so that the locking and
backoff schedule are visible: `Act.acquire`/`Act.release` delimit the
`_connection_lock` critical section and `Act.sleep d` is the backoff wait. -/

inductive Act where
  | acquire
  | release
  | attemptPublish (i : Nat)
  | sleep (d : ℚ)
deriving DecidableEq, Repr

def MAX_RETRIES : Nat := 3
def INITIAL_RETRY_DELAY : ℚ := 1 / 2
def MAX_RETRY_DELAY : ℚ := 5

/-- The retry loop of `RabbitMQEventBus.publish`.  `fuel` is the number of
remaining attempts (`MAX_RETRIES - attempt`); the backoff sleep happens
after releasing the lock and only when another attempt remains. -/
def publish_loop (env : Nat → Option String) (attempt : Nat)
    (retry_delay : ℚ) (last_error : Option String) :
    Nat → Except String Unit × List Act
  | 0 =>
      (match last_error with
       | some e => Except.error e
       | none => Except.error "no attempts", [])
  | fuel + 1 =>
      let pre := [Act.acquire, Act.attemptPublish attempt, Act.release]
      match env attempt with
      | none => (Except.ok (), pre)
      | some e =>
          let post := if 0 < fuel then [Act.sleep retry_delay] else []
          let next := publish_loop env (attempt + 1)
            (min (retry_delay * 2) MAX_RETRY_DELAY) (some e) fuel
          (next.1, pre ++ post ++ next.2)

/-- `RabbitMQEventBus.publish`: up to `MAX_RETRIES` attempts, then the last
connection error is raised to the caller. -/
def bus_publish (env : Nat → Option String) : Except String Unit × List Act :=
  publish_loop env 0 INITIAL_RETRY_DELAY none MAX_RETRIES

/-- `BaseCommand.publish_event`: inject the clock's Unix timestamp into the
payload, publish, and swallow (log) any publish failure so that the
command's own result is unaffected.  Returns the payload as delivered. -/
def base_publish_event (env : Nat → Option String) (now_unix : Nat)
    (payload : JObj) : Except String JObj :=
  let payload1 := JObj.setField payload "timestamp" (.i (now_unix : Int))
  match (bus_publish env).1 with
  | Except.ok _ => Except.ok payload1
  | Except.error _ => Except.ok payload1

/-- Checks that every `sleep` in a trace happens while the lock is free
(acquire depth zero). -/
def sleeps_unlocked : List Act → Nat → Bool
  | [], _ => true
  | Act.acquire :: rest, d => sleeps_unlocked rest (d + 1)
  | Act.release :: rest, d => sleeps_unlocked rest (d - 1)
  | Act.sleep _ :: rest, d => d == 0 && sleeps_unlocked rest d
  | _ :: rest, d => sleeps_unlocked rest d

/-- The sequence of backoff delays slept in a trace. -/
def sleep_delays : List Act → List ℚ
  | [] => []
  | Act.sleep d :: rest => d :: sleep_delays rest
  | _ :: rest => sleep_delays rest

/-- The number of publish attempts in a trace. -/
def attempt_count (tr : List Act) : Nat :=
  tr.countP (fun a => match a with
    | Act.attemptPublish _ => true
    | _ => false)

/-- Two match rows reference the same unordered report pair. -/
def samePair (m1 m2 : MatchRec) : Prop :=
  (m1.report_lost_id = m2.report_lost_id ∧
    m1.report_found_id = m2.report_found_id) ∨
  (m1.report_lost_id = m2.report_found_id ∧
    m1.report_found_id = m2.report_lost_id)

instance (m1 m2 : MatchRec) : Decidable (samePair m1 m2) := by
  unfold samePair
  infer_instance

/-- The database invariant backing the `Match.Meta` uniqueness constraint:
no two match rows reference the same unordered pair. -/
def NoDupPairs (st : MState) : Prop :=
  st.match_rows.Pairwise (fun a b => ¬ samePair a b)

/-! # Theorems -/

/-! ## Cache laws -/

namespace Cache

theorem find?_filter_ne (c : Cache) (k k' : CKey) (h : k' ≠ k) :
    (c.filter (fun e => e.1 != k)).find? (fun e => e.1 == k') =
      c.find? (fun e => e.1 == k') := by
  induction c with
  | nil => rfl
  | cons e rest ih =>
    by_cases hek : e.1 = k
    · have h1 : (e.1 != k) = false := by simp [hek]
      have h2 : (e.1 == k') = false := by simp [hek, (Ne.symm h)]
      simp [List.filter_cons, h1, List.find?_cons, h2, ih]
    · have h1 : (e.1 != k) = true := by simp [hek]
      by_cases hek' : e.1 = k'
      · simp [List.filter_cons, h1, List.find?_cons, hek', h]
      · have h2 : (e.1 == k') = false := by simp [hek']
        simp [List.filter_cons, h1, List.find?_cons, h2, ih]

theorem get_set_self (c : Cache) (now t : Nat) (k : CKey) (v : CVal)
    (ttl : Nat) (h : t < now + ttl) :
    get (set c now k v ttl) t k = some v := by
  simp [get, set, List.find?_cons, h]

theorem get_set_ne (c : Cache) (now t : Nat) (k k' : CKey) (v : CVal)
    (ttl : Nat) (h : k' ≠ k) :
    get (set c now k v ttl) t k' = get c t k' := by
  have h2 : (k == k') = false := by simp [Ne.symm h]
  simp [get, set, List.find?_cons, h2, find?_filter_ne c k k' h]

theorem get_delete_self (c : Cache) (t : Nat) (k : CKey) :
    get (delete c k) t k = none := by
  induction c with
  | nil => rfl
  | cons e rest ih =>
    by_cases hek : e.1 = k
    · have h1 : (e.1 != k) = false := by simp [hek]
      simpa [delete, get, List.filter_cons, h1] using ih
    · have h1 : (e.1 != k) = true := by simp [hek]
      have h2 : (e.1 == k) = false := by simp [hek]
      simpa [delete, get, List.filter_cons, h1, List.find?_cons, h2] using ih

theorem expiryOf_set_self (c : Cache) (now : Nat) (k : CKey) (v : CVal)
    (ttl : Nat) :
    expiryOf (set c now k v ttl) k = some (now + ttl) := by
  simp [expiryOf, set, List.find?_cons]

end Cache

/-! ## C1: idempotency guard replay and at-most-once effect -/

/-- **C1.** If an idempotency record for `(key, callerId)` already exists
when a request arrives, the guard returns the exact stored status and body
and leaves the store untouched (the wrapped operation is not invoked); and
issuing the same `(key, callerId)` twice from a state with no record
executes the underlying write exactly once: the second call returns the
same response as the first and changes nothing. -/
theorem idempotent_guard_at_most_once {σ : Type}
    (parse_uuid : String → Option String) (op : σ → HttpResponse × σ)
    (rk k : String) (uid : Nat) (ep : String) (st : IdemState σ)
    (hk : parse_uuid rk = some k) :
    (∀ r, st.records.find? (fun r => r.key == k && r.user_id == uid) = some r →
      idempotent_guard parse_uuid op (some rk) uid ep st =
        ({ status := r.response_status, data := r.response_body }, st)) ∧
    (st.records.find? (fun r => r.key == k && r.user_id == uid) = none →
      idempotent_guard parse_uuid op (some rk) uid ep
          (idempotent_guard parse_uuid op (some rk) uid ep st).2 =
        idempotent_guard parse_uuid op (some rk) uid ep st) := by
  constructor
  · intro r hr
    simp [idempotent_guard, hk, hr]
  · intro hnone
    simp only [idempotent_guard, hk, hnone]
    simp [List.find?_append, hnone]

/-- Witness for C1 at a concrete operation: a counter-incrementing write
with a fresh record store. -/
theorem idempotent_guard_at_most_once_witness :
    ((fun s => some s) : String → Option String) "k1" = some "k1" ∧
    (IdemState.records (σ := Nat) ⟨[], 0⟩).find?
      (fun r => r.key == "k1" && r.user_id == 7) = none ∧
    idempotent_guard (fun s => some s)
        (fun n => ({ status := 201, data := [("n", JVal.i n)] }, n + 1))
        (some "k1") 7 "POST:/reports"
        (idempotent_guard (fun s => some s)
          (fun n => ({ status := 201, data := [("n", JVal.i n)] }, n + 1))
          (some "k1") 7 "POST:/reports" ⟨[], 0⟩).2 =
      idempotent_guard (fun s => some s)
        (fun n => ({ status := 201, data := [("n", JVal.i n)] }, n + 1))
        (some "k1") 7 "POST:/reports" ⟨[], 0⟩ :=
  ⟨rfl, rfl,
    (idempotent_guard_at_most_once (fun s => some s)
      (fun n => ({ status := 201, data := [("n", JVal.i n)] }, n + 1))
      "k1" "k1" 7 "POST:/reports" ⟨[], 0⟩ rfl).2 rfl⟩

/-! ## C3: OTP attempt counter accounting -/

/-- **C3, counterexample.** The attempt counter is not monotonically
non-decreasing across every sequence of operations on a session: after a
send and one failed verification the counter is 1, and a subsequent
`resend_otp` resets it to 0. -/
theorem attempts_decrease_on_resend_cex :
    attemptsOf (verify_otp "req_a" "0000" 0
        (send_otp "9123456789" "+98" "1234" "req_a" 0 []).2.1).2
      0 "req_a" = some 1 ∧
    attemptsOf (resend_otp "req_a" "5678" 0
        (verify_otp "req_a" "0000" 0
          (send_otp "9123456789" "+98" "1234" "req_a" 0 []).2.1).2).2.1
      0 "req_a" = some 0 := by
  constructor <;> decide

/-- **C3, amended.** On every `verify_otp` call that finds a live session:
with `attempts` already at the maximum the call is refused with
`MAX_ATTEMPTS_REACHED` and the cache is untouched, regardless of the
submitted code; below the maximum the counter is incremented and persisted
before the comparison, so a wrong code still leaves `attempts + 1` stored;
hence `verify_otp` never decreases the counter.  `resend_otp`, by design,
resets the counter to 0. -/
theorem verify_otp_attempt_accounting (c : Cache) (rid input new_otp : String)
    (now : Nat) (d : OtpData)
    (hget : Cache.get c now (CKey.otp rid) = some (CVal.session d)) :
    (MAX_ATTEMPTS ≤ d.attempts →
      verify_otp rid input now c =
        ({ success := false, error_code := some "MAX_ATTEMPTS_REACHED" }, c)) ∧
    (d.attempts < MAX_ATTEMPTS → d.otp ≠ input →
      (verify_otp rid input now c).1.error_code = some "INVALID_OTP" ∧
      attemptsOf (verify_otp rid input now c).2 now rid =
        some (d.attempts + 1)) ∧
    (∀ n, attemptsOf (verify_otp rid input now c).2 now rid = some n →
      d.attempts ≤ n) ∧
    (d.resends < MAX_RESENDS →
      attemptsOf (resend_otp rid new_otp now c).2.1 now rid = some 0) := by
  have hset : ∀ d' : OtpData,
      Cache.get (Cache.set c now (CKey.otp rid) (CVal.session d')
        OTP_EXPIRY_SECONDS) now (CKey.otp rid) = some (CVal.session d') := by
    intro d'
    exact Cache.get_set_self c now now (CKey.otp rid) (CVal.session d')
      OTP_EXPIRY_SECONDS (by simp [OTP_EXPIRY_SECONDS])
  refine ⟨?_, ?_, ?_, ?_⟩
  · intro hmax
    simp [verify_otp, hget, hmax]
  · intro hlt hne
    simp [verify_otp, hget, Nat.not_le.mpr hlt, hne, attemptsOf, hset]
  · intro n hn
    by_cases hmax : MAX_ATTEMPTS ≤ d.attempts
    · simp [verify_otp, hget, hmax, attemptsOf] at hn
      omega
    · by_cases hne : d.otp = input
      · simp [verify_otp, hget, hmax, hne, attemptsOf,
          Cache.get_delete_self] at hn
      · simp [verify_otp, hget, hmax, hne, attemptsOf, hset] at hn
        omega
  · intro hres
    simp [resend_otp, hget, Nat.not_le.mpr hres, attemptsOf, hset]

/-- Witness for the amended C3 at a concrete session. -/
theorem verify_otp_attempt_accounting_witness :
    Cache.get (send_otp "9123456789" "+98" "1234" "req_a" 0 []).2.1 0
      (CKey.otp "req_a") =
        some (CVal.session ⟨"1234", "+989123456789", 0, 0, 0⟩) ∧
    (0 < MAX_ATTEMPTS ∧ ("1234" : String) ≠ "0000" ∧
      attemptsOf (verify_otp "req_a" "0000" 0
        (send_otp "9123456789" "+98" "1234" "req_a" 0 []).2.1).2 0 "req_a" =
          some 1) :=
  ⟨by decide,
    by decide,
    by decide,
    ((verify_otp_attempt_accounting
        (send_otp "9123456789" "+98" "1234" "req_a" 0 []).2.1
        "req_a" "0000" "5678" 0 ⟨"1234", "+989123456789", 0, 0, 0⟩
        (by decide)).2.1 (by decide) (by decide)).2⟩

/-! ## C4: a verified session cannot be verified again -/

/-- **C4.** When a `verify_otp` call succeeds, the session is deleted, and
any second `verify_otp` with the same request id — whatever code and at
whatever time — returns `INVALID_REQUEST_ID` and leaves the cache as it
was. -/
theorem verify_otp_succeeds_at_most_once (rid code code2 : String)
    (now now2 : Nat) (c : Cache)
    (h : (verify_otp rid code now c).1.success = true) :
    verify_otp rid code2 now2 (verify_otp rid code now c).2 =
      ({ success := false, error_code := some "INVALID_REQUEST_ID" },
        (verify_otp rid code now c).2) := by
  cases hc : Cache.get c now (CKey.otp rid) with
  | none => simp [verify_otp, hc] at h
  | some v =>
    cases v with
    | count n => simp [verify_otp, hc] at h
    | flag b => simp [verify_otp, hc] at h
    | session d =>
      by_cases hatt : MAX_ATTEMPTS ≤ d.attempts
      · simp [verify_otp, hc, hatt] at h
      · by_cases hotp : d.otp = code
        · simp [verify_otp, hc, hatt, hotp, Cache.get_delete_self]
        · simp [verify_otp, hc, hatt, hotp] at h

/-- Witness for C4: send then verify with the right code, then verify
again. -/
theorem verify_otp_succeeds_at_most_once_witness :
    (verify_otp "req_a" "1234" 0
      (send_otp "9123456789" "+98" "1234" "req_a" 0 []).2.1).1.success =
        true ∧
    verify_otp "req_a" "1234" 10
        (verify_otp "req_a" "1234" 0
          (send_otp "9123456789" "+98" "1234" "req_a" 0 []).2.1).2 =
      ({ success := false, error_code := some "INVALID_REQUEST_ID" },
        (verify_otp "req_a" "1234" 0
          (send_otp "9123456789" "+98" "1234" "req_a" 0 []).2.1).2) :=
  ⟨by decide,
    verify_otp_succeeds_at_most_once "req_a" "1234" "1234" 0 10
      (send_otp "9123456789" "+98" "1234" "req_a" 0 []).2.1 (by decide)⟩

/-! ## C9: failed verification refreshes the session TTL -/

/-- **C9.** A `verify_otp` call that finds a live session below the attempt
cap and is given a wrong code answers `INVALID_OTP` but rewrites the
session with a fresh full `OTP_EXPIRY_SECONDS` window: the stored expiry
becomes `now + 300` no matter when the session was issued, so repeated
failed attempts extend the session's lifetime beyond the window fixed at
issuance. -/
theorem verify_otp_wrong_code_resets_ttl (c : Cache) (rid input : String)
    (now : Nat) (d : OtpData)
    (hget : Cache.get c now (CKey.otp rid) = some (CVal.session d))
    (hatt : d.attempts < MAX_ATTEMPTS) (hwrong : d.otp ≠ input) :
    (verify_otp rid input now c).1.error_code = some "INVALID_OTP" ∧
    Cache.expiryOf (verify_otp rid input now c).2 (CKey.otp rid) =
      some (now + OTP_EXPIRY_SECONDS) := by
  simp [verify_otp, hget, Nat.not_le.mpr hatt, hwrong,
    Cache.expiryOf_set_self]

/-- Witness for C9: a session issued at time 0 expires at 300, but a wrong
code at time 200 moves its expiry to 500. -/
theorem verify_otp_wrong_code_resets_ttl_witness :
    Cache.expiryOf (send_otp "9123456789" "+98" "1234" "req_a" 0 []).2.1
      (CKey.otp "req_a") = some 300 ∧
    Cache.get (send_otp "9123456789" "+98" "1234" "req_a" 0 []).2.1 200
      (CKey.otp "req_a") =
        some (CVal.session ⟨"1234", "+989123456789", 0, 0, 0⟩) ∧
    Cache.expiryOf (verify_otp "req_a" "0000" 200
        (send_otp "9123456789" "+98" "1234" "req_a" 0 []).2.1).2
      (CKey.otp "req_a") = some 500 :=
  ⟨by decide, by decide,
    (verify_otp_wrong_code_resets_ttl
      (send_otp "9123456789" "+98" "1234" "req_a" 0 []).2.1
      "req_a" "0000" 200 ⟨"1234", "+989123456789", 0, 0, 0⟩
      (by decide) (by decide) (by decide)).2⟩

/-! ## C7: OTP send rate limiting -/

/-- One successful `send_otp` call bumps the stored hourly counter by one;
the counter is still visible at any later instant `t'` within the hour TTL. -/
theorem send_otp_success_step (phone cc otp rid : String) (t t' : Nat)
    (c : Cache) (hv : validate_phone phone = true)
    (hn : rateCountVal c t (cc ++ phone) < 5) (hlt : t' < t + 3600) :
    (send_otp phone cc otp rid t c).1.success = true ∧
    rateCountVal (send_otp phone cc otp rid t c).2.1 t' (cc ++ phone) =
      rateCountVal c t (cc ++ phone) + 1 := by
  have hrl : is_rate_limited c t (cc ++ phone) =
      (false, Cache.set c t (CKey.otpRate (cc ++ phone))
        (CVal.count (rateCountVal c t (cc ++ phone) + 1)) 3600) := by
    simp [is_rate_limited, Nat.not_le.mpr hn]
  have hne : CKey.otpRate (cc ++ phone) ≠ CKey.otp rid := by simp
  have hc2 : (send_otp phone cc otp rid t c).2.1 =
      Cache.set (Cache.set c t (CKey.otpRate (cc ++ phone))
        (CVal.count (rateCountVal c t (cc ++ phone) + 1)) 3600) t
        (CKey.otp rid)
        (CVal.session ⟨otp, cc ++ phone, 0, 0, t⟩) OTP_EXPIRY_SECONDS := by
    simp [send_otp, hv, hrl]
  constructor
  · simp [send_otp, hv, hrl]
  · rw [show rateCountVal (send_otp phone cc otp rid t c).2.1 t' (cc ++ phone) =
        match Cache.get (send_otp phone cc otp rid t c).2.1 t'
          (CKey.otpRate (cc ++ phone)) with
        | some (CVal.count n) => n
        | _ => 0 from rfl,
      hc2, Cache.get_set_ne _ _ _ _ _ _ _ hne,
      Cache.get_set_self _ _ _ _ _ _ hlt]

/-- A `send_otp` call that finds the hourly counter at five or more fails
with `TOO_MANY_REQUESTS`, leaving the cache untouched and publishing no
event: no code, session or event is issued. -/
theorem send_otp_rate_limited_step (phone cc otp rid : String) (t : Nat)
    (c : Cache) (hv : validate_phone phone = true)
    (hn : 5 ≤ rateCountVal c t (cc ++ phone)) :
    send_otp phone cc otp rid t c =
      ({ success := false, error_code := some "TOO_MANY_REQUESTS" }, c, []) := by
  have hrl : is_rate_limited c t (cc ++ phone) = (true, c) := by
    simp [is_rate_limited, hn]
  simp [send_otp, hv, hrl]

/-- **C7.** Starting from a cache with no rate state, six `send_otp` calls
for the same validated phone, all within one hour: the first five succeed
(five codes are issued) and the sixth fails with `TOO_MANY_REQUESTS`,
leaves the cache exactly as it was, and publishes no event. -/
theorem send_otp_sixth_call_rate_limited
    (phone cc o1 o2 o3 o4 o5 o6 r1 r2 r3 r4 r5 r6 : String)
    (t1 t2 t3 t4 t5 t6 : Nat) (hv : validate_phone phone = true)
    (hmono : t1 ≤ t2 ∧ t2 ≤ t3 ∧ t3 ≤ t4 ∧ t4 ≤ t5 ∧ t5 ≤ t6)
    (hhour : t6 < t1 + 3600) :
    let s1 := send_otp phone cc o1 r1 t1 []
    let s2 := send_otp phone cc o2 r2 t2 s1.2.1
    let s3 := send_otp phone cc o3 r3 t3 s2.2.1
    let s4 := send_otp phone cc o4 r4 t4 s3.2.1
    let s5 := send_otp phone cc o5 r5 t5 s4.2.1
    s1.1.success = true ∧ s2.1.success = true ∧ s3.1.success = true ∧
    s4.1.success = true ∧ s5.1.success = true ∧
    send_otp phone cc o6 r6 t6 s5.2.1 =
      ({ success := false, error_code := some "TOO_MANY_REQUESTS" },
        s5.2.1, []) := by
  obtain ⟨h12, h23, h34, h45, h56⟩ := hmono
  have hz : rateCountVal [] t1 (cc ++ phone) = 0 := rfl
  have s1h := send_otp_success_step phone cc o1 r1 t1 t2 [] hv
    (by rw [hz]; omega) (by omega)
  have s2h := send_otp_success_step phone cc o2 r2 t2 t3 _ hv
    (by rw [s1h.2, hz]; omega) (by omega)
  have s3h := send_otp_success_step phone cc o3 r3 t3 t4 _ hv
    (by rw [s2h.2, s1h.2, hz]; omega) (by omega)
  have s4h := send_otp_success_step phone cc o4 r4 t4 t5 _ hv
    (by rw [s3h.2, s2h.2, s1h.2, hz]; omega) (by omega)
  have s5h := send_otp_success_step phone cc o5 r5 t5 t6 _ hv
    (by rw [s4h.2, s3h.2, s2h.2, s1h.2, hz]; omega) (by omega)
  have s6h := send_otp_rate_limited_step phone cc o6 r6 t6 _ hv
    (by rw [s5h.2, s4h.2, s3h.2, s2h.2, s1h.2, hz])
  exact ⟨s1h.1, s2h.1, s3h.1, s4h.1, s5h.1, s6h⟩

/-- Witness for C7 at concrete codes, request ids and times. -/
theorem send_otp_sixth_call_rate_limited_witness :
    validate_phone "9123456789" = true ∧
    send_otp "9123456789" "+98" "6666" "req_6" 3000
        (send_otp "9123456789" "+98" "5555" "req_5" 2400
          (send_otp "9123456789" "+98" "4444" "req_4" 1800
            (send_otp "9123456789" "+98" "3333" "req_3" 1200
              (send_otp "9123456789" "+98" "2222" "req_2" 600
                (send_otp "9123456789" "+98" "1111" "req_1" 0 []).2.1).2.1).2.1).2.1).2.1 =
      ({ success := false, error_code := some "TOO_MANY_REQUESTS" },
        (send_otp "9123456789" "+98" "5555" "req_5" 2400
          (send_otp "9123456789" "+98" "4444" "req_4" 1800
            (send_otp "9123456789" "+98" "3333" "req_3" 1200
              (send_otp "9123456789" "+98" "2222" "req_2" 600
                (send_otp "9123456789" "+98" "1111" "req_1" 0 []).2.1).2.1).2.1).2.1).2.1,
        []) :=
  ⟨by decide,
    (send_otp_sixth_call_rate_limited "9123456789" "+98"
      "1111" "2222" "3333" "4444" "5555" "6666"
      "req_1" "req_2" "req_3" "req_4" "req_5" "req_6"
      0 600 1200 1800 2400 3000 (by decide)
      ⟨by omega, by omega, by omega, by omega, by omega⟩ (by omega)).2.2.2.2.2⟩

/-! ## C8: the `timestamp` field of published payloads -/

/-- Setting a field makes it present. -/
theorem JObj.hasField_setField (o : JObj) (k : String) (v : JVal) :
    JObj.hasField (JObj.setField o k v) k = true := by
  by_cases h : o.hasField k
  · unfold JObj.setField
    rw [if_pos h]
    unfold JObj.hasField at h ⊢
    rw [List.any_map]
    rw [List.any_eq_true] at h ⊢
    obtain ⟨x, hx, hxk⟩ := h
    exact ⟨x, hx, by simp [Function.comp, hxk]⟩
  · unfold JObj.setField
    rw [if_neg h]
    unfold JObj.hasField
    simp

/-- **C8** (documenting the divergence).  `BaseCommand.publish_event`
injects a Unix `timestamp` into every payload it delivers, but
`OTPAuthService.send_otp` publishes its `otp.send_requested` event directly
on the bus: the delivered payload carries no `timestamp` field at all. -/
theorem send_otp_event_lacks_timestamp (phone cc otp rid : String) (t : Nat)
    (c : Cache) (hv : validate_phone phone = true)
    (hn : rateCountVal c t (cc ++ phone) < 5) :
    (send_otp phone cc otp rid t c).2.2.map Event.event_type =
      ["otp.send_requested"] ∧
    (∀ ev ∈ (send_otp phone cc otp rid t c).2.2,
      ev.payload.hasField "timestamp" = false) ∧
    (∀ env now payload out,
      base_publish_event env now payload = Except.ok out →
        out.hasField "timestamp" = true) := by
  have hrl : is_rate_limited c t (cc ++ phone) =
      (false, Cache.set c t (CKey.otpRate (cc ++ phone))
        (CVal.count (rateCountVal c t (cc ++ phone) + 1)) 3600) := by
    simp [is_rate_limited, Nat.not_le.mpr hn]
  refine ⟨?_, ?_, ?_⟩
  · simp [send_otp, hv, hrl]
  · simp only [send_otp, hv, Bool.not_true, hrl]
    simp only [JObj.hasField, List.any_eq_true, not_exists]
    simp
    rintro a b (⟨rfl, h⟩ | ⟨rfl, h⟩ | ⟨rfl, h⟩ | ⟨rfl, h⟩) <;> decide
  · intro env now payload out h
    have : out = JObj.setField payload "timestamp" (.i (now : Int)) := by
      unfold base_publish_event at h
      cases hb : (bus_publish env).1 with
      | ok u => rw [hb] at h; exact (Except.ok.inj h).symm
      | error e => rw [hb] at h; exact (Except.ok.inj h).symm
    rw [this]
    exact JObj.hasField_setField payload "timestamp" _

/-- Witness for C8 at a concrete send. -/
theorem send_otp_event_lacks_timestamp_witness :
    validate_phone "9123456789" = true ∧
    rateCountVal [] 0 ("+98" ++ "9123456789") < 5 ∧
    (∀ ev ∈ (send_otp "9123456789" "+98" "1234" "req_a" 0 []).2.2,
      ev.payload.hasField "timestamp" = false) :=
  ⟨by decide, by decide,
    (send_otp_event_lacks_timestamp "9123456789" "+98" "1234" "req_a" 0 []
      (by decide) (by decide)).2.1⟩

/-! ## C2: bounded publish retries never fail the business command -/

/-- **C2.** When the broker is unreachable on all attempts,
`RabbitMQEventBus.publish` makes exactly `MAX_RETRIES = 3` attempts,
sleeping 0.5 s and then 1 s (doubling, capped at 5 s) with every sleep
outside the connection lock, and raises the last connection error to its
direct caller; yet `BaseCommand.publish_event` — the path every business
command publishes through — swallows the failure, so the command still
returns its own success with the timestamped payload it tried to send. -/
theorem bus_publish_broker_down (env : Nat → Option String) (e0 e1 e2 : String)
    (h0 : env 0 = some e0) (h1 : env 1 = some e1) (h2 : env 2 = some e2) :
    bus_publish env =
      (Except.error e2,
        [Act.acquire, Act.attemptPublish 0, Act.release, Act.sleep (1 / 2),
         Act.acquire, Act.attemptPublish 1, Act.release, Act.sleep 1,
         Act.acquire, Act.attemptPublish 2, Act.release]) ∧
    attempt_count (bus_publish env).2 = MAX_RETRIES ∧
    sleep_delays (bus_publish env).2 = [1 / 2, 1] ∧
    sleeps_unlocked (bus_publish env).2 0 = true ∧
    (∀ now payload, base_publish_event env now payload =
      Except.ok (JObj.setField payload "timestamp" (.i (now : Int)))) := by
  have htrace : bus_publish env =
      (Except.error e2,
        [Act.acquire, Act.attemptPublish 0, Act.release, Act.sleep (1 / 2),
         Act.acquire, Act.attemptPublish 1, Act.release, Act.sleep 1,
         Act.acquire, Act.attemptPublish 2, Act.release]) := by
    unfold bus_publish MAX_RETRIES
    simp only [publish_loop, h0, h1, h2]
    norm_num [INITIAL_RETRY_DELAY, MAX_RETRY_DELAY]
  refine ⟨htrace, ?_, ?_, ?_, ?_⟩
  · rw [htrace]
    rfl
  · rw [htrace]
    rfl
  · rw [htrace]
    rfl
  · intro now payload
    unfold base_publish_event
    rw [htrace]

/-- Witness for C2: a broker that refuses every connection. -/
theorem bus_publish_broker_down_witness :
    ((fun _ => some "conn refused") : Nat → Option String) 0 =
      some "conn refused" ∧
    bus_publish (fun _ => some "conn refused") =
      (Except.error "conn refused",
        [Act.acquire, Act.attemptPublish 0, Act.release, Act.sleep (1 / 2),
         Act.acquire, Act.attemptPublish 1, Act.release, Act.sleep 1,
         Act.acquire, Act.attemptPublish 2, Act.release]) ∧
    base_publish_event (fun _ => some "conn refused") 1700000000 [] =
      Except.ok [("timestamp", JVal.i 1700000000)] :=
  ⟨rfl,
    (bus_publish_broker_down (fun _ => some "conn refused")
      "conn refused" "conn refused" "conn refused" rfl rfl rfl).1,
    (bus_publish_broker_down (fun _ => some "conn refused")
      "conn refused" "conn refused" "conn refused" rfl rfl rfl).2.2.2.2
      1700000000 []⟩

/-! ## C10: matching an unknown report id is a no-op -/

/-- **C10.** If no report has the given id, `find_matches_for_report`
returns the empty candidate list, creates no match rows (the state is
untouched) and publishes no event — it does not raise or return a
distinct not-found code. -/
theorem find_matches_unknown_report (rid : String) (st : MState)
    (h : ∀ r ∈ st.reports, r.id ≠ rid) :
    find_matches_for_report rid st = ([], st, []) := by
  have hf : st.reports.find? (fun r => r.id == rid) = none := by
    rw [List.find?_eq_none]
    intro r hr
    simp [h r hr]
  simp [find_matches_for_report, hf]

/-- Witness for C10: an empty report table. -/
theorem find_matches_unknown_report_witness :
    (∀ r ∈ (MState.reports ⟨[], [], 0⟩), r.id ≠ "missing") ∧
    find_matches_for_report "missing" ⟨[], [], 0⟩ = ([], ⟨[], [], 0⟩, []) :=
  ⟨by simp, find_matches_unknown_report "missing" ⟨[], [], 0⟩ (by simp)⟩

/-! ## C6: no duplicate match rows for an unordered pair -/

/-- The candidates kept by the scoring loop carry ids of scanned reports,
in order: their ids form a sublist of the scanned ids. -/
theorem score_candidates_ids_sublist (newR : Report) (rows : List MatchRec)
    (l : List Report) :
    ((score_candidates newR rows l).map (fun c => c.report_id)).Sublist
      (l.map (fun r => r.id)) := by
  induction l with
  | nil => simp [score_candidates]
  | cons cand rest ih =>
    rw [score_candidates]
    by_cases hm : match_exists rows newR.id cand.id
    · rw [if_pos hm]
      exact ih.trans (List.sublist_cons_self _ _)
    · rw [if_neg hm]
      by_cases hs : MATCH_DISPLAY_THRESHOLD ≤ calculate_similarity newR cand
      · rw [if_pos hs]
        simpa using ih.cons₂ cand.id
      · rw [if_neg hs]
        exact ih.trans (List.sublist_cons_self _ _)

/-- Every kept candidate comes from a scanned report and passed the
duplicate check against the existing match table. -/
theorem score_candidates_mem (newR : Report) (rows : List MatchRec)
    (l : List Report) (c : MatchCandidate)
    (hc : c ∈ score_candidates newR rows l) :
    (∃ r ∈ l, r.id = c.report_id) ∧
      match_exists rows newR.id c.report_id = false := by
  induction l with
  | nil => simp [score_candidates] at hc
  | cons cand rest ih =>
    rw [score_candidates] at hc
    by_cases hm : match_exists rows newR.id cand.id
    · rw [if_pos hm] at hc
      obtain ⟨⟨r, hr, hrid⟩, hfresh⟩ := ih hc
      exact ⟨⟨r, List.mem_cons_of_mem _ hr, hrid⟩, hfresh⟩
    · rw [if_neg hm] at hc
      by_cases hs : MATCH_DISPLAY_THRESHOLD ≤ calculate_similarity newR cand
      · rw [if_pos hs] at hc
        rcases List.mem_cons.mp hc with hEq | hmem
        · subst hEq
          exact ⟨⟨cand, List.mem_cons_self _ _, rfl⟩,
            Bool.not_eq_true _ ▸ eq_false_of_ne_true hm⟩
        · obtain ⟨⟨r, hr, hrid⟩, hfresh⟩ := ih hmem
          exact ⟨⟨r, List.mem_cons_of_mem _ hr, hrid⟩, hfresh⟩
      · rw [if_neg hs] at hc
        obtain ⟨⟨r, hr, hrid⟩, hfresh⟩ := ih hc
        exact ⟨⟨r, List.mem_cons_of_mem _ hr, hrid⟩, hfresh⟩

/-- Each row produced by the creation loop links the new report with one
of the candidates, oriented by the new report's type. -/
theorem create_rows_pair_shape (newR : Report) (cands : List MatchCandidate)
    (nid : Nat) (m : MatchRec) (hm : m ∈ (create_rows newR nid cands).1) :
    ∃ c ∈ cands,
      (m.report_lost_id = newR.id ∧ m.report_found_id = c.report_id) ∨
      (m.report_lost_id = c.report_id ∧ m.report_found_id = newR.id) := by
  induction cands generalizing nid with
  | nil => simp [create_rows] at hm
  | cons c rest ih =>
    rw [create_rows] at hm
    rcases List.mem_cons.mp hm with hEq | hmem
    · subst hEq
      by_cases ht : newR.report_type = RType.lost
      · exact ⟨c, List.mem_cons_self _ _, Or.inl (by simp [ht])⟩
      · exact ⟨c, List.mem_cons_self _ _, Or.inr (by simp [ht])⟩
    · obtain ⟨c', hc', hshape⟩ := ih (nid + 1) hmem
      exact ⟨c', List.mem_cons_of_mem _ hc', hshape⟩

/-- Rows created for candidates with pairwise-distinct ids, none equal to
the new report's id, are pairwise over distinct unordered pairs. -/
theorem create_rows_pairwise (newR : Report) (cands : List MatchCandidate)
    (nid : Nat)
    (hnodup : (cands.map (fun c => c.report_id)).Nodup)
    (hne : ∀ c ∈ cands, c.report_id ≠ newR.id) :
    (create_rows newR nid cands).1.Pairwise (fun a b => ¬ samePair a b) := by
  induction cands generalizing nid with
  | nil => simp [create_rows]
  | cons c rest ih =>
    rw [create_rows]
    rw [List.map_cons, List.nodup_cons] at hnodup
    refine List.Pairwise.cons ?_ (ih (nid + 1) hnodup.2
      (fun c' hc' => hne c' (List.mem_cons_of_mem _ hc')))
    intro m hm hpair
    obtain ⟨c', hc', hshape⟩ := create_rows_pair_shape newR rest (nid + 1) m hm
    have hcne : c.report_id ≠ newR.id := hne c (List.mem_cons_self _ _)
    have hc'ne : c'.report_id ≠ newR.id :=
      hne c' (List.mem_cons_of_mem _ hc')
    have hcc' : c.report_id ≠ c'.report_id := by
      intro hEq
      exact hnodup.1 (hEq ▸ List.mem_map_of_mem (fun x => x.report_id) hc')
    by_cases ht : newR.report_type = RType.lost <;>
      rcases hshape with ⟨hl, hf⟩ | ⟨hl, hf⟩ <;>
      rcases hpair with ⟨p1, p2⟩ | ⟨p1, p2⟩ <;>
      simp_all [samePair]

/-- A row linking the new report to a candidate that passed the duplicate
check shares no unordered pair with any pre-existing row. -/
theorem create_rows_fresh (newR : Report) (cands : List MatchCandidate)
    (nid : Nat) (rows : List MatchRec)
    (hfresh : ∀ c ∈ cands, match_exists rows newR.id c.report_id = false)
    (mo : MatchRec) (hmo : mo ∈ rows)
    (m : MatchRec) (hm : m ∈ (create_rows newR nid cands).1) :
    ¬ samePair mo m := by
  obtain ⟨c, hc, hshape⟩ := create_rows_pair_shape newR cands nid m hm
  have hf := hfresh c hc
  unfold match_exists at hf
  rw [List.any_eq_false] at hf
  have hfo := hf mo hmo
  intro hpair
  rcases hshape with ⟨hl, hr⟩ | ⟨hl, hr⟩ <;>
    rcases hpair with ⟨p1, p2⟩ | ⟨p1, p2⟩ <;>
    simp_all

/-- Preservation core: creating rows for candidates that are distinct,
different from the new report, and fresh against the match table keeps the
no-duplicate-pair invariant. -/
theorem create_matches_preserves (newR : Report)
    (cands : List MatchCandidate) (st : MState)
    (hinv : NoDupPairs st)
    (hnodup : (cands.map (fun c => c.report_id)).Nodup)
    (hne : ∀ c ∈ cands, c.report_id ≠ newR.id)
    (hfresh : ∀ c ∈ cands,
      match_exists st.match_rows newR.id c.report_id = false) :
    NoDupPairs (create_matches newR cands st).1 := by
  unfold NoDupPairs create_matches
  rw [List.pairwise_append]
  exact ⟨hinv, create_rows_pairwise newR cands st.next_id hnodup hne,
    fun mo hmo m hm =>
      create_rows_fresh newR cands st.next_id st.match_rows hfresh
        mo hmo m hm⟩

/-- **C6.** Provided report ids are unique (the primary key) and the match
table has no duplicate unordered pair (the `unique_together` constraint
plus the in-loop either-orientation check), `find_matches_for_report`
preserves the property: afterwards there is still at most one match row
per unordered pair of reports. -/
theorem find_matches_no_duplicate_pairs (rid : String) (st : MState)
    (hids : (st.reports.map (fun r => r.id)).Nodup)
    (hinv : NoDupPairs st) :
    NoDupPairs (find_matches_for_report rid st).2.1 := by
  unfold find_matches_for_report
  split
  · exact hinv
  · next newR hf =>
    by_cases hst : newR.status ≠ RStatus.active
    · rw [if_pos hst]
      exact hinv
    · rw [if_neg hst]
      have hnewmem : newR ∈ st.reports := List.mem_of_find?_eq_some hf
      set opposite := if newR.report_type = RType.lost
        then RType.found else RType.lost with hopp
      have hoppne : opposite ≠ newR.report_type := by
        rw [hopp]
        cases h : newR.report_type <;> simp
      set cands0 := st.reports.filter (fun r =>
        r.report_type == opposite && r.status == RStatus.active) with hc0
      set cands1 := match newR.gender with
        | some g => cands0.filter (fun (r : Report) =>
            r.gender == some g || r.gender == none)
        | none => cands0 with hc1
      have hsub1 : cands1.Sublist cands0 := by
        rw [hc1]
        cases newR.gender with
        | none => exact List.Sublist.refl _
        | some g => exact List.filter_sublist _
      have hsub : (cands1.take 1000).Sublist st.reports :=
        ((List.take_sublist _ _).trans hsub1).trans (List.filter_sublist _)
      set cands := cands1.take 1000 with hcands
      set scored := score_candidates newR st.match_rows cands with hscored
      set sorted := (scored.mergeSort (fun a b =>
        b.similarity_score ≤ a.similarity_score)).take
          MAX_MATCHES_PER_REPORT with hsorted
      have hscored_ids : (scored.map (fun c => c.report_id)).Nodup := by
        refine List.Nodup.sublist ?_ hids
        exact (score_candidates_ids_sublist newR st.match_rows cands).trans
          (hsub.map _)
      have hsorted_ids : (sorted.map (fun c => c.report_id)).Nodup := by
        refine List.Nodup.sublist ((List.take_sublist _ _).map _) ?_
        exact ((List.mergeSort_perm scored _).map _).nodup_iff.mpr hscored_ids
      have hsorted_mem : ∀ c ∈ sorted, c ∈ scored := by
        intro c hc
        exact (List.mergeSort_perm scored _).mem_iff.mp
          (List.mem_of_mem_take hc)
      have hsorted_ne : ∀ c ∈ sorted, c.report_id ≠ newR.id := by
        intro c hc hceq
        obtain ⟨⟨r, hr, hrid⟩, -⟩ :=
          score_candidates_mem newR st.match_rows cands c (hsorted_mem c hc)
        have hrmem : r ∈ st.reports := hsub.mem hr
        have hrtype : r.report_type = opposite := by
          have hmf := List.mem_filter.mp (hsub1.mem (List.mem_of_mem_take hr))
          have h2 := hmf.2
          simp only [Bool.and_eq_true, beq_iff_eq] at h2
          exact h2.1
        have : r = newR :=
          List.inj_on_of_nodup_map hids hrmem hnewmem (by rw [hrid, hceq])
        exact hoppne (this ▸ hrtype).symm
      have hsorted_fresh : ∀ c ∈ sorted,
          match_exists st.match_rows newR.id c.report_id = false := by
        intro c hc
        exact (score_candidates_mem newR st.match_rows cands c
          (hsorted_mem c hc)).2
      exact create_matches_preserves newR sorted st hinv hsorted_ids
        hsorted_ne hsorted_fresh

/-- Witness for C6: a single active lost report with an empty match
table. -/
theorem find_matches_no_duplicate_pairs_witness :
    ((MState.reports ⟨[⟨"L1", RType.lost, RStatus.active, some "male",
        some 5, 34, 50, 1⟩], [], 0⟩).map (fun r => r.id)).Nodup ∧
    NoDupPairs ⟨[⟨"L1", RType.lost, RStatus.active, some "male",
        some 5, 34, 50, 1⟩], [], 0⟩ ∧
    NoDupPairs (find_matches_for_report "L1"
      ⟨[⟨"L1", RType.lost, RStatus.active, some "male",
        some 5, 34, 50, 1⟩], [], 0⟩).2.1 :=
  ⟨by simp, by simp [NoDupPairs],
    find_matches_no_duplicate_pairs "L1" _ (by simp) (by simp [NoDupPairs])⟩

/-! ## C5: the weighted score for equal gender, 15-year age gap, equal
coordinates -/

/-- The haversine distance between a point and itself is zero. -/
theorem haversine_self (lat lng : ℝ) : haversine_distance lat lng lat lng = 0 := by
  unfold haversine_distance atan2
  norm_num [Real.sqrt_one, Real.arctan_zero]

/-- Equal coordinates score 100 on location. -/
theorem location_score_self (lat lng : ℝ) : location_score lat lng lat lng = 100 := by
  unfold location_score
  rw [haversine_self]
  norm_num

/-- The similarity of a lost and a found report with equal present genders,
ages 15 years apart and identical coordinates: the real-valued weighted sum
`100*0.40 + 10*0.35 + 100*0.25 = 68.5` is truncated — not rounded — to 68,
with no per-sub-score rounding. -/
theorem calculate_similarity_age15_same_spot (g : String) (a1 a2 : Int)
    (la lo : ℝ) (id1 id2 : String) (u1 u2 : Int)
    (hage : (a1 - a2).natAbs = 15) :
    calculate_similarity
      ⟨id1, RType.lost, RStatus.active, some g, some a1, la, lo, u1⟩
      ⟨id2, RType.found, RStatus.active, some g, some a2, la, lo, u2⟩ = 68 := by
  unfold calculate_similarity
  have hg : gender_score (some g) (some g) = 100 := by simp [gender_score]
  have ha : age_score (some a1) (some a2) = 10 := by
    simp only [age_score, hage]
    norm_num
  have hl := location_score_self la lo
  show pyInt ((gender_score (some g) (some g) : ℝ) * 0.40 +
    (age_score (some a1) (some a2) : ℝ) * 0.35 +
    (location_score la lo la lo : ℝ) * 0.25) = 68
  rw [hg, ha, hl]
  rw [show ((100 : Int) : ℝ) * 0.40 + ((10 : Int) : ℝ) * 0.35 +
    ((100 : Int) : ℝ) * 0.25 = 68.5 by norm_num]
  rw [pyInt, if_pos (by norm_num), Int.floor_eq_iff]
  norm_num

/-- **C5.** For a lost and a found report with equal present genders, ages
15 years apart and identical coordinates, the similarity is the truncated
weighted sum 68; 68 clears the display threshold so the candidate is kept
with score 68, and clears the notify threshold 60 so a `match.found` event
is published. -/
theorem find_matches_age15_same_spot (g : String) (a1 a2 : Int) (la lo : ℝ)
    (id1 id2 : String) (u1 u2 : Int) (hage : (a1 - a2).natAbs = 15) :
    calculate_similarity
      ⟨id1, RType.lost, RStatus.active, some g, some a1, la, lo, u1⟩
      ⟨id2, RType.found, RStatus.active, some g, some a2, la, lo, u2⟩ = 68 ∧
    (find_matches_for_report id1
      ⟨[⟨id1, RType.lost, RStatus.active, some g, some a1, la, lo, u1⟩,
        ⟨id2, RType.found, RStatus.active, some g, some a2, la, lo, u2⟩],
       [], 0⟩).1 =
      [{ report_id := id2, user_id := u2, similarity_score := 68 }] ∧
    (find_matches_for_report id1
      ⟨[⟨id1, RType.lost, RStatus.active, some g, some a1, la, lo, u1⟩,
        ⟨id2, RType.found, RStatus.active, some g, some a2, la, lo, u2⟩],
       [], 0⟩).2.2.map Event.event_type = ["match.found"] := by
  have hsim := calculate_similarity_age15_same_spot g a1 a2 la lo id1 id2
    u1 u2 hage
  refine ⟨hsim, ?_, ?_⟩ <;>
  · unfold find_matches_for_report
    rw [List.find?_cons_of_pos _ (by simp)]
    simp [score_candidates, match_exists, create_matches, create_rows,
      match_found_event, hsim, List.mergeSort_singleton,
      MATCH_DISPLAY_THRESHOLD, MATCH_NOTIFY_THRESHOLD,
      MAX_MATCHES_PER_REPORT]

/-- Witness for C5: male/male, ages 5 and 20, both at the qom coordinates
from the spec scenario. -/
theorem find_matches_age15_same_spot_witness :
    ((5 : Int) - 20).natAbs = 15 ∧
    calculate_similarity
      ⟨"L1", RType.lost, RStatus.active, some "male", some 5,
        34.6416, 50.8746, 1⟩
      ⟨"F1", RType.found, RStatus.active, some "male", some 20,
        34.6416, 50.8746, 2⟩ = 68 ∧
    (find_matches_for_report "L1"
      ⟨[⟨"L1", RType.lost, RStatus.active, some "male", some 5,
          34.6416, 50.8746, 1⟩,
        ⟨"F1", RType.found, RStatus.active, some "male", some 20,
          34.6416, 50.8746, 2⟩], [], 0⟩).2.2.map Event.event_type =
      ["match.found"] :=
  ⟨by decide,
    (find_matches_age15_same_spot "male" 5 20 34.6416 50.8746 "L1" "F1" 1 2
      (by decide)).1,
    (find_matches_age15_same_spot "male" 5 20 34.6416 50.8746 "L1" "F1" 1 2
      (by decide)).2.2⟩

end Peyda
